import Mathlib

/-
Shallow embedding of src/main.rs of the 1001albums GroupMe bot.

The program fetches the current album of a 1001albumsgenerator group,
formats an announcement, and posts it to a GroupMe webhook.  Both
outbound HTTP calls are wrapped in a retry loop with a fixed limit and
a fixed sleep between attempts.

Modelling decisions, each traceable to the source:
  - one call to reqwest send() is modelled by an oracle function from
    the attempt index to its outcome; a send() error (connection
    failure, timeout, ...) is the sendFail constructor, a response
    carries its HTTP status code and, for the fetch, the outcome of
    decoding the body as JSON;
  - the Rust expression client.get(url).send()? propagates a send()
    error straight out of the function (the ? operator sits before
    error_for_status), so the sendFail branch of the embedding returns
    without consulting the retry counter;
  - error_for_status() of reqwest fails exactly on 4xx and 5xx status
    codes (is_client_error or is_server_error);
  - the unwrap() calls on the four JSON fields abort the process when a
    field is absent or not a string; this is the panicked constructor;
  - thread::sleep is modelled by accumulating slept seconds in the
    returned trace, and each send() call increments the attempt count;
  - Local::now() of chrono is ambient state: the World structure holds
    the clock reading, and get_message receives the World and returns
    it unchanged, since the Rust function performs no writes;
  - env::var is an oracle from variable names to optional values, and
    expect() on a missing variable is the configPanic outcome of main.
-/

namespace AlbumsBot

def GENERATOR_URL : String := "https://1001albumsgenerator.com"

def GROUPME_API_URL : String := "https://api.groupme.com/v3/bots/post"

def SPOTIFY_URL : String := "https://open.spotify.com/album"

/-- The Album struct of main.rs. -/
structure Album where
  album : String
  artist : String
  release_year : String
  spotify_link : String
deriving DecidableEq, Repr

/-- The Message struct of main.rs (serialized as the POST body). -/
structure Message where
  bot_id : String
  text : String
deriving DecidableEq, Repr

/-- serde_json::Value. -/
inductive JsonValue where
  | null : JsonValue
  | bool (b : Bool) : JsonValue
  | num (n : Int) : JsonValue
  | str (s : String) : JsonValue
  | arr (elems : List JsonValue) : JsonValue
  | obj (fields : List ( String × JsonValue)) : JsonValue

/-- Indexing a serde_json::Value with a string key: the value under the
key of an object, and Value::Null for a missing key or a non-object. -/
def JsonValue.index (j : JsonValue) (key : String) : JsonValue :=
  match j with
  | .obj fields =>
    match fields.lookup key with
    | some v => v
    | none => .null
  | _ => .null

/-- Value::as_str: some for a JSON string, none otherwise. -/
def JsonValue.as_str : JsonValue → Option String
  | .str s => some s
  | _ => none

/-- A reqwest::Error, by provenance. -/
inductive ReqError where
  | connect (msg : String) : ReqError
  | timeout (msg : String) : ReqError
  | status (code : Nat) : ReqError
  | decode (msg : String) : ReqError
deriving DecidableEq, Repr

/-- Response::error_for_status fails exactly on client-error (4xx) and
server-error (5xx) status codes. -/
def error_for_status_fails (code : Nat) : Bool :=
  (decide (400 ≤ code) && decide (code ≤ 499)) ||
    (decide (500 ≤ code) && decide (code ≤ 599))

/-- Outcome of decoding a response body with r.json::<serde_json::Value>(). -/
inductive BodyOutcome where
  | decodeFail (msg : String) : BodyOutcome
  | json (j : JsonValue) : BodyOutcome

/-- Outcome of one client.get(url).send() call in get_album: either
send() itself returns Err, or a response arrives with a status code and
a body. -/
inductive FetchOutcome where
  | sendFail (e : ReqError) : FetchOutcome
  | resp (code : Nat) (body : BodyOutcome) : FetchOutcome

/-- Outcome of one client.post(..).json(..).send() call in send_message. -/
inductive SendOutcome where
  | sendFail (e : ReqError) : SendOutcome
  | resp (code : Nat) : SendOutcome
deriving DecidableEq, Repr

/-- What a run of get_album produces: the Album, a propagated
reqwest::Error, or a process abort from unwrap() on a bad field. -/
inductive GetAlbumResult where
  | ok (a : Album) : GetAlbumResult
  | err (e : ReqError) : GetAlbumResult
  | panicked : GetAlbumResult
deriving DecidableEq, Repr

/-- What a run of send_message produces. -/
inductive SendResult where
  | ok : SendResult
  | err (e : ReqError) : SendResult
deriving DecidableEq, Repr

/-- Observable trace of one retry loop: its result, how many send()
attempts were made, and how many seconds were spent in thread::sleep. -/
structure CallTrace (α : Type) where
  result : α
  attempts : Nat
  sleptSecs : Nat
deriving DecidableEq, Repr

/-- Field extraction of get_album: the four unwrap()ed as_str() reads on
json["currentAlbum"], in source order; none means the process panics. -/
def extract_album (json : JsonValue) : Option Album :=
  match ((json.index "currentAlbum").index "name").as_str with
  | none => none
  | some name =>
    match ((json.index "currentAlbum").index "artist").as_str with
    | none => none
    | some artist =>
      match ((json.index "currentAlbum").index "releaseDate").as_str with
      | none => none
      | some release_year =>
        match ((json.index "currentAlbum").index "spotifyId").as_str with
        | none => none
        | some spotify_id =>
          some ⟨name, artist, release_year, SPOTIFY_URL ++ "/" ++ spotify_id⟩

/-- The loop of get_album.  fuel is retry_limit minus the retries already
taken, so the Err branch retries exactly when retry < retry_limit.  idx
numbers the send() attempts. -/
def get_album_go (outcomes : Nat → FetchOutcome) (sleep_secs : Nat) :
    Nat → Nat → CallTrace GetAlbumResult
  | fuel, idx =>
    match outcomes idx with
    | .sendFail e => ⟨.err e, 1, 0⟩
    | .resp code body =>
      if error_for_status_fails code then
        match fuel with
        | 0 => ⟨.err (.status code), 1, 0⟩
        | fuel' + 1 =>
          let t := get_album_go outcomes sleep_secs fuel' (idx + 1)
          ⟨t.result, t.attempts + 1, t.sleptSecs + sleep_secs⟩
      else
        match body with
        | .decodeFail msg => ⟨.err (.decode msg), 1, 0⟩
        | .json j =>
          match extract_album j with
          | some a => ⟨.ok a, 1, 0⟩
          | none => ⟨.panicked, 1, 0⟩

/-- get_album of main.rs, over the oracle of send() outcomes. -/
def get_album (outcomes : Nat → FetchOutcome) (retry_limit : Nat)
    (sleep_secs : Nat) : CallTrace GetAlbumResult :=
  get_album_go outcomes sleep_secs retry_limit 0

/-- The loop of send_message, same retry structure as get_album. -/
def send_message_go (outcomes : Nat → SendOutcome) (sleep_secs : Nat) :
    Nat → Nat → CallTrace SendResult
  | fuel, idx =>
    match outcomes idx with
    | .sendFail e => ⟨.err e, 1, 0⟩
    | .resp code =>
      if error_for_status_fails code then
        match fuel with
        | 0 => ⟨.err (.status code), 1, 0⟩
        | fuel' + 1 =>
          let t := send_message_go outcomes sleep_secs fuel' (idx + 1)
          ⟨t.result, t.attempts + 1, t.sleptSecs + sleep_secs⟩
      else ⟨.ok, 1, 0⟩

/-- send_message of main.rs.  bot_id and message form the serialized
POST body; the HTTP outcomes come from the oracle. -/
def send_message (bot_id : String) (message : String)
    (outcomes : Nat → SendOutcome) (retry_limit : Nat)
    (sleep_secs : Nat) : CallTrace SendResult :=
  let _ := Message.mk bot_id message
  send_message_go outcomes sleep_secs retry_limit 0

/-- The month/day/year reading of chrono Local::now(). -/
structure LocalDate where
  month : Nat
  day : Nat
  year : Int
deriving DecidableEq, Repr

/-- Ambient state visible to the program: the local clock and a log of
HTTP requests issued so far. -/
structure World where
  clock : LocalDate
  requestLog : List String
deriving DecidableEq, Repr

/-- get_message of main.rs: reads Local::now() from the world, builds
the announcement by the fixed format! template, performs no other
effect, and hands the world back unchanged. -/
def get_message (album : Album) (generator_group_url : String)
    (w : World) : String × World :=
  let dt := w.clock
  let message :=
    "1001albumsgenerator " ++ toString dt.month ++ "/" ++ toString dt.day ++
      "/" ++ toString dt.year ++ "\n\n" ++ album.album ++ " by " ++
      album.artist ++ " (" ++ album.release_year ++ ")" ++ "\n\n" ++
      album.spotify_link ++ "\n\n" ++ "Group: " ++ generator_group_url ++ "\n"
  (message, w)

/-- needle occurs verbatim inside hay. -/
def appears_in (needle hay : String) : Prop :=
  ∃ pre post : String, hay = pre ++ needle ++ post

/-- How a run of main ends. -/
inductive MainOutcome where
  | ok : MainOutcome
  | configPanic (msg : String) : MainOutcome
  | parsePanic : MainOutcome
  | fetchExpectPanic (e : ReqError) : MainOutcome
  | sendExpectPanic (e : ReqError) : MainOutcome
deriving DecidableEq, Repr

/-- Observable trace of a run of main: how it ended, the total number
of HTTP send() attempts across both calls, and total seconds slept. -/
structure MainTrace where
  outcome : MainOutcome
  httpAttempts : Nat
  sleptSecs : Nat
deriving DecidableEq, Repr

/-- let retry_limit: u8 = 10 in main. -/
def main_retry_limit : Nat := 10

/-- let sleep_secs: u64 = 60 in main. -/
def main_sleep_secs : Nat := 60

/-- main of main.rs: read BOT_ID and GROUP from the environment
(expect() aborts on a missing one before any request is issued), fetch
the album, format the message, send it.  Both calls receive the same
hardcoded retry_limit and sleep_secs. -/
def main_model (env : String → Option String) (w : World)
    (fetchOutcomes : Nat → FetchOutcome)
    (sendOutcomes : Nat → SendOutcome) : MainTrace :=
  match env "BOT_ID" with
  | none => ⟨.configPanic "BOT_ID is not set", 0, 0⟩
  | some bot_id =>
    match env "GROUP" with
    | none => ⟨.configPanic "GROUP is not set", 0, 0⟩
    | some group =>
      let _ := GENERATOR_URL ++ "/api/v1/groups/" ++ group
      let t := get_album fetchOutcomes main_retry_limit main_sleep_secs
      match t.result with
      | .err e => ⟨.fetchExpectPanic e, t.attempts, t.sleptSecs⟩
      | .panicked => ⟨.parsePanic, t.attempts, t.sleptSecs⟩
      | .ok album =>
        let generator_group_url := GENERATOR_URL ++ "/groups/" ++ group
        let msg := (get_message album generator_group_url w).1
        let s := send_message bot_id msg sendOutcomes main_retry_limit
          main_sleep_secs
        match s.result with
        | .err e =>
          ⟨.sendExpectPanic e, t.attempts + s.attempts,
            t.sleptSecs + s.sleptSecs⟩
        | .ok =>
          ⟨.ok, t.attempts + s.attempts, t.sleptSecs + s.sleptSecs⟩

/-! Concrete inputs used by the closed theorems below. -/

/-- A generator response carrying all four album fields. -/
def okComputerJson : JsonValue :=
  .obj [ ( "currentAlbum", .obj
    [ ( "name", .str "OK Computer"),
      ( "artist", .str "Radiohead"),
      ( "releaseDate", .str "1997-05-21"),
      ( "spotifyId", .str "XYZ")])]

/-- The album extracted from okComputerJson. -/
def okComputerAlbum : Album :=
  ⟨"OK Computer", "Radiohead", "1997-05-21",
    "https://open.spotify.com/album/XYZ"⟩

/-- A generator response whose artist field is absent. -/
def missingArtistJson : JsonValue :=
  .obj [ ( "currentAlbum", .obj
    [ ( "name", .str "OK Computer"),
      ( "releaseDate", .str "1997-05-21"),
      ( "spotifyId", .str "XYZ")])]

/-- Every fetch attempt ends in a connection error from send(). -/
def connRefusedFetch : Nat → FetchOutcome :=
  fun _ => .sendFail (.connect "connection refused")

/-- Every send_message attempt ends in a timeout from send(). -/
def timeoutSendOracle : Nat → SendOutcome :=
  fun _ => .sendFail (.timeout "operation timed out")

/-- Fetch attempt 0 times out at send(); later attempts would succeed. -/
def timeoutThenOkFetch : Nat → FetchOutcome :=
  fun i => if i = 0 then .sendFail (.timeout "read timed out")
    else .resp 200 (.json okComputerJson)

/-- Every fetch attempt gets an HTTP 503 response. -/
def allStatus503Fetch : Nat → FetchOutcome :=
  fun _ => .resp 503 (.json .null)

/-- Every send_message attempt gets an HTTP 503 response. -/
def allStatus503Send : Nat → SendOutcome := fun _ => .resp 503

/-- Every fetch attempt gets an HTTP 500 response. -/
def allStatus500Fetch : Nat → FetchOutcome :=
  fun _ => .resp 500 (.json .null)

/-- Every send_message attempt gets an HTTP 500 response. -/
def allStatus500Send : Nat → SendOutcome := fun _ => .resp 500

/-- Fetch attempt 0 gets a 500; attempt 1 succeeds with a full album. -/
def fail1ThenOkFetch : Nat → FetchOutcome :=
  fun i => if i = 0 then .resp 500 (.json .null)
    else .resp 200 (.json okComputerJson)

/-- send_message attempt 0 gets a 500; attempt 1 gets a 200. -/
def fail1ThenOkSend : Nat → SendOutcome :=
  fun i => if i = 0 then .resp 500 else .resp 200

/-- Every fetch attempt succeeds with a full album. -/
def okFetchOracle : Nat → FetchOutcome :=
  fun _ => .resp 200 (.json okComputerJson)

/-- Every send_message attempt gets a 200. -/
def okSendOracle : Nat → SendOutcome := fun _ => .resp 200

/-- A 2xx fetch response whose body is not valid JSON. -/
def decodeFailFetch : Nat → FetchOutcome :=
  fun _ => .resp 200 (.decodeFail "expected value at line 1 column 1")

/-- An environment with no variables set. -/
def envNone : String → Option String := fun _ => none

/-- An environment with only BOT_ID set. -/
def envBotOnly : String → Option String :=
  fun v => if v = "BOT_ID" then some "B" else none

/-- An environment with BOT_ID and GROUP set. -/
def envFull : String → Option String :=
  fun v => if v = "BOT_ID" then some "B"
    else if v = "GROUP" then some "abc" else none

/-- A world whose clock reads 3/15/2024 and with an empty request log. -/
def worldA : World := ⟨⟨3, 15, 2024⟩, []⟩

/-- Same clock as worldA, a different request log. -/
def worldB : World := ⟨⟨3, 15, 2024⟩, [ "earlier request"]⟩

/-- The display URL of the group abc. -/
def groupAbcUrl : String := "https://1001albumsgenerator.com/groups/abc"

/-! Helper lemmas about the retry loops. -/

/-- A 2xx status passes error_for_status. -/
theorem error_for_status_ok_of_2xx (code : Nat) (h1 : 200 ≤ code)
    (h2 : code ≤ 299) : error_for_status_fails code = false := by
  simp only [error_for_status_fails, Bool.or_eq_false_iff, Bool.and_eq_false_iff,
    decide_eq_false_iff_not, not_le]
  omega

/-- If every send() in get_album yields a response failing
error_for_status, the loop burns all its fuel, sleeping once per retry,
and surfaces the status error of the final attempt. -/
theorem get_album_go_all_status_fail (outcomes : Nat → FetchOutcome)
    (codes : Nat → Nat) (bodies : Nat → BodyOutcome) (ss : Nat)
    (h : ∀ i, outcomes i = .resp (codes i) (bodies i))
    (hf : ∀ i, error_for_status_fails (codes i) = true) :
    ∀ fuel idx, get_album_go outcomes ss fuel idx =
      ⟨.err (.status (codes (idx + fuel))), fuel + 1, fuel * ss⟩ := by
  intro fuel
  induction fuel with
  | zero =>
    intro idx
    simp [get_album_go, h idx, hf idx]
  | succ n ih =>
    intro idx
    rw [show idx + (n + 1) = idx + 1 + n from by omega]
    rw [get_album_go]
    simp [h idx, hf idx, ih (idx + 1), Nat.succ_mul]

/-- Same exhaustion behavior for the loop of send_message. -/
theorem send_message_go_all_status_fail (outcomes : Nat → SendOutcome)
    (codes : Nat → Nat) (ss : Nat)
    (h : ∀ i, outcomes i = .resp (codes i))
    (hf : ∀ i, error_for_status_fails (codes i) = true) :
    ∀ fuel idx, send_message_go outcomes ss fuel idx =
      ⟨.err (.status (codes (idx + fuel))), fuel + 1, fuel * ss⟩ := by
  intro fuel
  induction fuel with
  | zero =>
    intro idx
    simp [send_message_go, h idx, hf idx]
  | succ n ih =>
    intro idx
    rw [show idx + (n + 1) = idx + 1 + n from by omega]
    rw [send_message_go]
    simp [h idx, hf idx, ih (idx + 1), Nat.succ_mul]

/-- If the first k send() calls of get_album yield 4xx/5xx responses and
call k yields a passing response whose body parses into the album, the
loop returns that album after k+1 attempts and k sleeps, provided the
fuel covers the k retries. -/
theorem get_album_go_fail_prefix (outcomes : Nat → FetchOutcome) (ss : Nat)
    (j : JsonValue) (a : Album) (ck : Nat)
    (hck : error_for_status_fails ck = false)
    (hj : extract_album j = some a) :
    ∀ k fuel idx,
      (∀ i, i < k → ∃ c b, outcomes (idx + i) = .resp c b ∧
        error_for_status_fails c = true) →
      outcomes (idx + k) = .resp ck (.json j) →
      k ≤ fuel →
      get_album_go outcomes ss fuel idx = ⟨.ok a, k + 1, k * ss⟩ := by
  intro k
  induction k with
  | zero =>
    intro fuel idx hpre hsucc hle
    rw [Nat.add_zero] at hsucc
    simp [get_album_go, hsucc, hck, hj]
  | succ n ih =>
    intro fuel idx hpre hsucc hle
    obtain ⟨c, b, hcb, hc⟩ := hpre 0 (Nat.succ_pos n)
    rw [Nat.add_zero] at hcb
    cases fuel with
    | zero => omega
    | succ m =>
      have hpre' : ∀ i, i < n → ∃ c b, outcomes (idx + 1 + i) = .resp c b ∧
          error_for_status_fails c = true := by
        intro i hi
        have := hpre (i + 1) (by omega)
        rwa [show idx + (i + 1) = idx + 1 + i from by omega] at this
      have hsucc' : outcomes (idx + 1 + n) = .resp ck (.json j) := by
        rwa [show idx + 1 + n = idx + (n + 1) from by omega]
      have ihm := ih m (idx + 1) hpre' hsucc' (by omega)
      simp [get_album_go, hcb, hc, ihm, Nat.succ_mul]

/-- Same fail-then-succeed behavior for the loop of send_message. -/
theorem send_message_go_fail_prefix (outcomes : Nat → SendOutcome)
    (ss : Nat) (ck : Nat)
    (hck : error_for_status_fails ck = false) :
    ∀ k fuel idx,
      (∀ i, i < k → ∃ c, outcomes (idx + i) = .resp c ∧
        error_for_status_fails c = true) →
      outcomes (idx + k) = .resp ck →
      k ≤ fuel →
      send_message_go outcomes ss fuel idx = ⟨.ok, k + 1, k * ss⟩ := by
  intro k
  induction k with
  | zero =>
    intro fuel idx hpre hsucc hle
    rw [Nat.add_zero] at hsucc
    simp [send_message_go, hsucc, hck]
  | succ n ih =>
    intro fuel idx hpre hsucc hle
    obtain ⟨c, hcb, hc⟩ := hpre 0 (Nat.succ_pos n)
    rw [Nat.add_zero] at hcb
    cases fuel with
    | zero => omega
    | succ m =>
      have hpre' : ∀ i, i < n → ∃ c, outcomes (idx + 1 + i) = .resp c ∧
          error_for_status_fails c = true := by
        intro i hi
        have := hpre (i + 1) (by omega)
        rwa [show idx + (i + 1) = idx + 1 + i from by omega] at this
      have hsucc' : outcomes (idx + 1 + n) = .resp ck := by
        rwa [show idx + 1 + n = idx + (n + 1) from by omega]
      have ihm := ih m (idx + 1) hpre' hsucc' (by omega)
      simp [send_message_go, hcb, hc, ihm, Nat.succ_mul]

/-- The loop of get_album never makes more than fuel + 1 attempts. -/
theorem get_album_go_attempts_le (outcomes : Nat → FetchOutcome)
    (ss : Nat) : ∀ fuel idx,
      (get_album_go outcomes ss fuel idx).attempts ≤ fuel + 1 := by
  intro fuel
  induction fuel with
  | zero =>
    intro idx
    rw [get_album_go]
    rcases h : outcomes idx with e | ⟨code, body⟩
    · simp [h]
    · simp only [h]
      split
      · simp
      · rcases body with msg | j
        · simp
        · rcases hx : extract_album j with _ | a <;> simp [hx]
  | succ n ih =>
    intro idx
    rw [get_album_go]
    rcases h : outcomes idx with e | ⟨code, body⟩
    · simp [h]
    · simp only [h]
      split
      · have := ih (idx + 1)
        simp only [CallTrace.attempts]
        omega
      · rcases body with msg | j
        · simp
        · rcases hx : extract_album j with _ | a <;> simp [hx]

/-- The loop of send_message never makes more than fuel + 1 attempts. -/
theorem send_message_go_attempts_le (outcomes : Nat → SendOutcome)
    (ss : Nat) : ∀ fuel idx,
      (send_message_go outcomes ss fuel idx).attempts ≤ fuel + 1 := by
  intro fuel
  induction fuel with
  | zero =>
    intro idx
    rw [send_message_go]
    rcases h : outcomes idx with e | code
    · simp [h]
    · simp only [h]
      split <;> simp
  | succ n ih =>
    intro idx
    rw [send_message_go]
    rcases h : outcomes idx with e | code
    · simp [h]
    · simp only [h]
      split
      · have := ih (idx + 1)
        simp only [CallTrace.attempts]
        omega
      · simp

/-- A send() error at the current attempt leaves the loop of get_album
at once, whatever fuel remains. -/
theorem get_album_go_sendFail (outcomes : Nat → FetchOutcome) (ss : Nat)
    (e : ReqError) (fuel idx : Nat) (h : outcomes idx = .sendFail e) :
    get_album_go outcomes ss fuel idx = ⟨.err e, 1, 0⟩ := by
  cases fuel <;> simp [get_album_go, h]

/-- A send() error at the current attempt leaves the loop of
send_message at once, whatever fuel remains. -/
theorem send_message_go_sendFail (outcomes : Nat → SendOutcome) (ss : Nat)
    (e : ReqError) (fuel idx : Nat) (h : outcomes idx = .sendFail e) :
    send_message_go outcomes ss fuel idx = ⟨.err e, 1, 0⟩ := by
  cases fuel <;> simp [send_message_go, h]

/-- extract_album is none as soon as one of the four fields is missing
or not a string. -/
theorem extract_album_eq_none (j : JsonValue)
    (h : ((j.index "currentAlbum").index "name").as_str = none ∨
      ((j.index "currentAlbum").index "artist").as_str = none ∨
      ((j.index "currentAlbum").index "releaseDate").as_str = none ∨
      ((j.index "currentAlbum").index "spotifyId").as_str = none) :
    extract_album j = none := by
  rcases hn : ((j.index "currentAlbum").index "name").as_str with _ | vn
  · simp [extract_album, hn]
  · rcases ha : ((j.index "currentAlbum").index "artist").as_str with _ | va
    · simp [extract_album, hn, ha]
    · rcases hr : ((j.index "currentAlbum").index "releaseDate").as_str
        with _ | vr
      · simp [extract_album, hn, ha, hr]
      · rcases hs : ((j.index "currentAlbum").index "spotifyId").as_str
          with _ | vs
        · simp [extract_album, hn, ha, hr, hs]
        · simp [hn, ha, hr, hs] at h

/-! Claim theorems. -/

/-- C1 counterexample: the claim says every transport-layer error
(connection failure, timeout, non-2xx status) is retried up to the
policy limit.  With retry budget 10 and every attempt failing with a
connection error from send(), get_album propagates the error after a
single attempt, with no sleep: 1 attempt instead of the 11 the claim
demands. -/
theorem get_album_connect_error_escapes_retry :
    get_album connRefusedFetch 10 60 =
      ⟨.err (.connect "connection refused"), 1, 0⟩ ∧
    (get_album connRefusedFetch 10 60).attempts ≠ 10 + 1 := by
  exact ⟨rfl, by decide⟩

/-- C1 amended: on both outbound calls, an error produced by
error_for_status — that is, a 4xx or 5xx HTTP status — is retried up to
the policy limit and surfaced only after the budget is exhausted; an
error surfaced by send() itself (connection failure, timeout) is
propagated to the caller at once, with no retry and no delay. -/
theorem retry_classification_of_loops :
    (∀ (outcomes : Nat → FetchOutcome) (codes : Nat → Nat)
        (bodies : Nat → BodyOutcome) (N ss : Nat),
      (∀ i, outcomes i = .resp (codes i) (bodies i)) →
      (∀ i, error_for_status_fails (codes i) = true) →
      get_album outcomes N ss =
        ⟨.err (.status (codes N)), N + 1, N * ss⟩) ∧
    (∀ (outcomes : Nat → FetchOutcome) (e : ReqError) (N ss : Nat),
      outcomes 0 = .sendFail e →
      get_album outcomes N ss = ⟨.err e, 1, 0⟩) ∧
    (∀ (bot msg : String) (outcomes : Nat → SendOutcome)
        (codes : Nat → Nat) (N ss : Nat),
      (∀ i, outcomes i = .resp (codes i)) →
      (∀ i, error_for_status_fails (codes i) = true) →
      send_message bot msg outcomes N ss =
        ⟨.err (.status (codes N)), N + 1, N * ss⟩) ∧
    (∀ (bot msg : String) (outcomes : Nat → SendOutcome) (e : ReqError)
        (N ss : Nat),
      outcomes 0 = .sendFail e →
      send_message bot msg outcomes N ss = ⟨.err e, 1, 0⟩) := by
  refine ⟨?_, ?_, ?_, ?_⟩
  · intro outcomes codes bodies N ss h hf
    have := get_album_go_all_status_fail outcomes codes bodies ss h hf N 0
    simpa [get_album] using this
  · intro outcomes e N ss h
    have := get_album_go_sendFail outcomes ss e N 0 h
    simpa [get_album] using this
  · intro bot msg outcomes codes N ss h hf
    have := send_message_go_all_status_fail outcomes codes ss h hf N 0
    simpa [send_message] using this
  · intro bot msg outcomes e N ss h
    have := send_message_go_sendFail outcomes ss e N 0 h
    simpa [send_message] using this

/-- C1 witness: the amended classification at concrete inputs — an
all-503 fetch with budget 2 takes 3 attempts and 120 s of sleep, a
connection error leaves immediately, and likewise for send_message. -/
theorem retry_classification_of_loops_witness :
    get_album allStatus503Fetch 2 60 = ⟨.err (.status 503), 3, 120⟩ ∧
    get_album connRefusedFetch 5 60 =
      ⟨.err (.connect "connection refused"), 1, 0⟩ ∧
    send_message "B" "M" allStatus503Send 2 60 =
      ⟨.err (.status 503), 3, 120⟩ ∧
    send_message "B" "M" timeoutSendOracle 5 60 =
      ⟨.err (.timeout "operation timed out"), 1, 0⟩ := by
  refine ⟨?_, ?_, ?_, ?_⟩
  · exact retry_classification_of_loops.1 allStatus503Fetch
      (fun _ => 503) (fun _ => .json .null) 2 60
      (fun i => rfl) (fun i => rfl)
  · exact retry_classification_of_loops.2.1 connRefusedFetch
      (.connect "connection refused") 5 60 rfl
  · exact retry_classification_of_loops.2.2.1 "B" "M" allStatus503Send
      (fun _ => 503) 2 60 (fun i => rfl) (fun i => rfl)
  · exact retry_classification_of_loops.2.2.2 "B" "M" timeoutSendOracle
      (.timeout "operation timed out") 5 60 rfl

/-- C2 counterexample: the claim says an operation whose every attempt
fails with a retryable failure makes exactly N+1 attempts and sleeps
N × delay.  With retry budget 10, delay 60 and every attempt failing
with a timeout — retryable per the classification of the spec —
send_message stops after one attempt and zero sleep. -/
theorem send_message_all_timeout_single_attempt :
    send_message "bot" "msg" timeoutSendOracle 10 60 =
      ⟨.err (.timeout "operation timed out"), 1, 0⟩ ∧
    (send_message "bot" "msg" timeoutSendOracle 10 60).attempts ≠ 10 + 1 ∧
    (send_message "bot" "msg" timeoutSendOracle 10 60).sleptSecs ≠
      10 * 60 := by
  exact ⟨rfl, by decide, by decide⟩

/-- C2 amended: for every retry limit N, an operation whose every
attempt fails with a 4xx/5xx HTTP status — the failure class the code
actually retries — makes exactly N+1 attempts, sleeps exactly
N × delay in total, and then returns the status failure of the last
attempt; for N = 0 a single failing attempt propagates with zero
delay. -/
theorem retry_exhaustion_counts :
    (∀ (outcomes : Nat → FetchOutcome) (codes : Nat → Nat)
        (bodies : Nat → BodyOutcome) (N ss : Nat),
      (∀ i, outcomes i = .resp (codes i) (bodies i)) →
      (∀ i, error_for_status_fails (codes i) = true) →
      get_album outcomes N ss =
        ⟨.err (.status (codes N)), N + 1, N * ss⟩) ∧
    (∀ (bot msg : String) (outcomes : Nat → SendOutcome)
        (codes : Nat → Nat) (N ss : Nat),
      (∀ i, outcomes i = .resp (codes i)) →
      (∀ i, error_for_status_fails (codes i) = true) →
      send_message bot msg outcomes N ss =
        ⟨.err (.status (codes N)), N + 1, N * ss⟩) ∧
    (∀ (outcomes : Nat → FetchOutcome) (codes : Nat → Nat)
        (bodies : Nat → BodyOutcome) (ss : Nat),
      (∀ i, outcomes i = .resp (codes i) (bodies i)) →
      (∀ i, error_for_status_fails (codes i) = true) →
      get_album outcomes 0 ss = ⟨.err (.status (codes 0)), 1, 0⟩) := by
  refine ⟨?_, ?_, ?_⟩
  · intro outcomes codes bodies N ss h hf
    have := get_album_go_all_status_fail outcomes codes bodies ss h hf N 0
    simpa [get_album] using this
  · intro bot msg outcomes codes N ss h hf
    have := send_message_go_all_status_fail outcomes codes ss h hf N 0
    simpa [send_message] using this
  · intro outcomes codes bodies ss h hf
    have := get_album_go_all_status_fail outcomes codes bodies ss h hf 0 0
    simpa [get_album] using this

/-- C2 witness: the amended exhaustion counts at concrete inputs,
including the N = 0 case. -/
theorem retry_exhaustion_counts_witness :
    get_album allStatus503Fetch 4 60 = ⟨.err (.status 503), 5, 240⟩ ∧
    send_message "B" "M" allStatus503Send 4 7 =
      ⟨.err (.status 503), 5, 28⟩ ∧
    get_album allStatus503Fetch 0 60 = ⟨.err (.status 503), 1, 0⟩ := by
  refine ⟨?_, ?_, ?_⟩
  · exact retry_exhaustion_counts.1 allStatus503Fetch (fun _ => 503)
      (fun _ => .json .null) 4 60 (fun i => rfl) (fun i => rfl)
  · exact retry_exhaustion_counts.2.1 "B" "M" allStatus503Send
      (fun _ => 503) 4 7 (fun i => rfl) (fun i => rfl)
  · exact retry_exhaustion_counts.2.2 allStatus503Fetch (fun _ => 503)
      (fun _ => .json .null) 60 (fun i => rfl) (fun i => rfl)

/-- C3 counterexample: the claim says an operation failing retryably on
only its first attempt (k = 1 < N = 10) and succeeding afterwards
returns the success after 2 attempts.  When that first failure is a
timeout from send() — retryable per the classification of the spec —
get_album propagates the timeout after 1 attempt and never reaches the
successful second attempt. -/
theorem get_album_timeout_then_ok_never_retries :
    get_album timeoutThenOkFetch 10 60 =
      ⟨.err (.timeout "read timed out"), 1, 0⟩ := by
  exact rfl

/-- C3 amended: for every retry limit N and every operation that fails
with a 4xx/5xx HTTP status — the failure class the code actually
retries — on exactly the first k attempts (k < N) and then succeeds,
the loop returns the success after exactly k+1 attempts, sleeping
exactly k times and never after the successful attempt. -/
theorem retry_then_success_counts :
    (∀ (outcomes : Nat → FetchOutcome) (k N ss ck : Nat) (j : JsonValue)
        (a : Album),
      (∀ i, i < k → ∃ c b, outcomes i = .resp c b ∧
        error_for_status_fails c = true) →
      outcomes k = .resp ck (.json j) →
      error_for_status_fails ck = false →
      extract_album j = some a →
      k < N →
      get_album outcomes N ss = ⟨.ok a, k + 1, k * ss⟩) ∧
    (∀ (bot msg : String) (outcomes : Nat → SendOutcome) (k N ss ck : Nat),
      (∀ i, i < k → ∃ c, outcomes i = .resp c ∧
        error_for_status_fails c = true) →
      outcomes k = .resp ck →
      error_for_status_fails ck = false →
      k < N →
      send_message bot msg outcomes N ss = ⟨.ok, k + 1, k * ss⟩) := by
  constructor
  · intro outcomes k N ss ck j a hpre hsucc hck hj hkN
    have hpre0 : ∀ i, i < k → ∃ c b, outcomes (0 + i) = .resp c b ∧
        error_for_status_fails c = true := by simpa using hpre
    have hsucc0 : outcomes (0 + k) = .resp ck (.json j) := by simpa using hsucc
    have := get_album_go_fail_prefix outcomes ss j a ck hck hj k N 0
      hpre0 hsucc0 (by omega)
    simpa [get_album] using this
  · intro bot msg outcomes k N ss ck hpre hsucc hck hkN
    have hpre0 : ∀ i, i < k → ∃ c, outcomes (0 + i) = .resp c ∧
        error_for_status_fails c = true := by simpa using hpre
    have hsucc0 : outcomes (0 + k) = .resp ck := by simpa using hsucc
    have := send_message_go_fail_prefix outcomes ss ck hck k N 0
      hpre0 hsucc0 (by omega)
    simpa [send_message] using this

/-- C3 witness: one 500-failure then success, with budget 10 — two
attempts, one 60 s sleep, and the parsed album (resp. delivery) is
returned. -/
theorem retry_then_success_counts_witness :
    get_album fail1ThenOkFetch 10 60 = ⟨.ok okComputerAlbum, 2, 60⟩ ∧
    send_message "B" "M" fail1ThenOkSend 10 60 = ⟨.ok, 2, 60⟩ := by
  constructor
  · exact retry_then_success_counts.1 fail1ThenOkFetch 1 10 60 200
      okComputerJson okComputerAlbum
      (by intro i hi
          have hz : i = 0 := by omega
          subst hz
          exact ⟨500, .json .null, rfl, rfl⟩)
      rfl rfl rfl (by omega)
  · exact retry_then_success_counts.2 "B" "M" fail1ThenOkSend 1 10 60 200
      (by intro i hi
          have hz : i = 0 := by omega
          subst hz
          exact ⟨500, rfl, rfl⟩)
      rfl rfl (by omega)

/-- C4: a successful (2xx) fetch response whose parsed JSON body lacks
one of the four required fields, or has it as a non-string value, makes
the program abort (unwrap panic) after that single attempt — no retry,
no sleep, whatever the remaining budget. -/
theorem get_album_malformed_body_panics (outcomes : Nat → FetchOutcome)
    (N ss code : Nat) (j : JsonValue)
    (hresp : outcomes 0 = .resp code (.json j))
    (h1 : 200 ≤ code) (h2 : code ≤ 299)
    (hmiss : ((j.index "currentAlbum").index "name").as_str = none ∨
      ((j.index "currentAlbum").index "artist").as_str = none ∨
      ((j.index "currentAlbum").index "releaseDate").as_str = none ∨
      ((j.index "currentAlbum").index "spotifyId").as_str = none) :
    get_album outcomes N ss = ⟨.panicked, 1, 0⟩ := by
  have hefs := error_for_status_ok_of_2xx code h1 h2
  have hex := extract_album_eq_none j hmiss
  rw [get_album, get_album_go]
  simp [hresp, hefs, hex]

/-- C4 witness: the missing-artist response of the spec aborts the run
at once despite a budget of 10 retries. -/
theorem get_album_malformed_body_panics_witness :
    get_album (fun _ => .resp 200 (.json missingArtistJson)) 10 60 =
      ⟨.panicked, 1, 0⟩ := by
  exact get_album_malformed_body_panics _ 10 60 200 missingArtistJson rfl
    (by omega) (by omega) (Or.inr (Or.inl rfl))

/-- C10: a successful (2xx) fetch response whose body fails JSON
deserialization makes get_album return that decode error at once — one
attempt, no sleep, whatever the remaining budget. -/
theorem get_album_decode_error_immediate (outcomes : Nat → FetchOutcome)
    (N ss code : Nat) (msg : String)
    (hresp : outcomes 0 = .resp code (.decodeFail msg))
    (h1 : 200 ≤ code) (h2 : code ≤ 299) :
    get_album outcomes N ss = ⟨.err (.decode msg), 1, 0⟩ := by
  have hefs := error_for_status_ok_of_2xx code h1 h2
  rw [get_album, get_album_go]
  simp [hresp, hefs]

/-- C10 witness: an unparseable 200 body is propagated after one
attempt despite a budget of 10 retries. -/
theorem get_album_decode_error_immediate_witness :
    get_album decodeFailFetch 10 60 =
      ⟨.err (.decode "expected value at line 1 column 1"), 1, 0⟩ := by
  exact get_album_decode_error_immediate decodeFailFetch 10 60 200
    "expected value at line 1 column 1" rfl (by omega) (by omega)

/-- C5: for every album, clock reading and group URL, the formatted
message contains the date rendered month/day/year, the line
title by artist (releaseYear), the streaming link and the group URL,
each input value verbatim. -/
theorem get_message_template_contents (album : Album) (u : String)
    (w : World) :
    appears_in (toString w.clock.month ++ "/" ++ toString w.clock.day ++
      "/" ++ toString w.clock.year) (get_message album u w).1 ∧
    appears_in (album.album ++ " by " ++ album.artist ++ " (" ++
      album.release_year ++ ")") (get_message album u w).1 ∧
    appears_in album.spotify_link (get_message album u w).1 ∧
    appears_in u (get_message album u w).1 := by
  refine ⟨⟨"1001albumsgenerator ",
      "\n\n" ++ album.album ++ " by " ++ album.artist ++ " (" ++
        album.release_year ++ ")" ++ "\n\n" ++ album.spotify_link ++
        "\n\n" ++ "Group: " ++ u ++ "\n", ?_⟩,
    ⟨"1001albumsgenerator " ++ toString w.clock.month ++ "/" ++
        toString w.clock.day ++ "/" ++ toString w.clock.year ++ "\n\n",
      "\n\n" ++ album.spotify_link ++ "\n\n" ++ "Group: " ++ u ++ "\n", ?_⟩,
    ⟨"1001albumsgenerator " ++ toString w.clock.month ++ "/" ++
        toString w.clock.day ++ "/" ++ toString w.clock.year ++ "\n\n" ++
        album.album ++ " by " ++ album.artist ++ " (" ++
        album.release_year ++ ")" ++ "\n\n",
      "\n\n" ++ "Group: " ++ u ++ "\n", ?_⟩,
    ⟨"1001albumsgenerator " ++ toString w.clock.month ++ "/" ++
        toString w.clock.day ++ "/" ++ toString w.clock.year ++ "\n\n" ++
        album.album ++ " by " ++ album.artist ++ " (" ++
        album.release_year ++ ")" ++ "\n\n" ++ album.spotify_link ++
        "\n\n" ++ "Group: ", "\n", ?_⟩⟩ <;>
  simp only [get_message, String.append_assoc]

/-- C6: the formatter is effect-free and depends only on the injected
album, the clock reading and the group URL: it returns the world
unchanged (no I/O), and two worlds agreeing on the clock produce
byte-identical output. -/
theorem get_message_pure (album : Album) (u : String) (w1 w2 : World)
    (hclock : w1.clock = w2.clock) :
    (get_message album u w1).2 = w1 ∧
    (get_message album u w1).1 = (get_message album u w2).1 := by
  exact ⟨rfl, by simp [get_message, hclock]⟩

/-- C6 witness: the OK Computer album on 3/15/2024 — the world comes
back unchanged, and a world differing only in its request log yields
the identical bytes. -/
theorem get_message_pure_witness :
    (get_message okComputerAlbum groupAbcUrl worldA).2 = worldA ∧
    (get_message okComputerAlbum groupAbcUrl worldA).1 =
      (get_message okComputerAlbum groupAbcUrl worldB).1 := by
  exact ⟨(get_message_pure okComputerAlbum groupAbcUrl worldA worldA rfl).1,
    (get_message_pure okComputerAlbum groupAbcUrl worldA worldB rfl).2⟩

/-- C7: both retry loops are total functions of the attempt-outcome
sequence, and for every such sequence the number of attempts made is at
most retry_limit + 1. -/
theorem retry_loops_attempt_bound (outcomes : Nat → FetchOutcome)
    (soutcomes : Nat → SendOutcome) (bot msg : String) (N ss : Nat) :
    (get_album outcomes N ss).attempts ≤ N + 1 ∧
    (send_message bot msg soutcomes N ss).attempts ≤ N + 1 := by
  constructor
  · simpa [get_album] using get_album_go_attempts_le outcomes ss N 0
  · simpa [send_message] using send_message_go_attempts_le soutcomes ss N 0

/-- C8: if BOT_ID is unset, or BOT_ID is set and GROUP is unset, main
aborts with the corresponding descriptive message, with zero HTTP
attempts issued and no sleeping; no default value is substituted. -/
theorem main_missing_config_fatal (env : String → Option String)
    (w : World) (f : Nat → FetchOutcome) (s : Nat → SendOutcome) :
    (env "BOT_ID" = none →
      main_model env w f s = ⟨.configPanic "BOT_ID is not set", 0, 0⟩) ∧
    (∀ b, env "BOT_ID" = some b → env "GROUP" = none →
      main_model env w f s = ⟨.configPanic "GROUP is not set", 0, 0⟩) := by
  constructor
  · intro h
    simp [main_model, h]
  · intro b hb hg
    simp [main_model, hb, hg]

/-- C8 witness: an empty environment aborts on BOT_ID, and an
environment with only BOT_ID aborts on GROUP, both before any
request. -/
theorem main_missing_config_fatal_witness :
    main_model envNone worldA okFetchOracle okSendOracle =
      ⟨.configPanic "BOT_ID is not set", 0, 0⟩ ∧
    main_model envBotOnly worldA okFetchOracle okSendOracle =
      ⟨.configPanic "GROUP is not set", 0, 0⟩ := by
  exact ⟨(main_missing_config_fatal envNone worldA okFetchOracle
      okSendOracle).1 rfl,
    (main_missing_config_fatal envBotOnly worldA okFetchOracle
      okSendOracle).2 "B" rfl rfl⟩

/-- C9: with the configuration present, main hands the hardcoded policy
— retry limit 10, 60 second delay — to both call sites: a fetch whose
attempts all return 500 is given up after exactly 11 attempts and 600
seconds of sleep, and so is the send once the fetch has succeeded (12
attempts in total, the first being the successful fetch). -/
theorem main_policy_shared_by_both_calls (env : String → Option String)
    (b g : String) (w : World) (f : Nat → FetchOutcome)
    (s : Nat → SendOutcome)
    (hb : env "BOT_ID" = some b) (hg : env "GROUP" = some g) :
    (∀ bodies : Nat → BodyOutcome,
      (∀ i, f i = .resp 500 (bodies i)) →
      main_model env w f s =
        ⟨.fetchExpectPanic (.status 500), 11, 600⟩) ∧
    (∀ (j : JsonValue) (a : Album),
      f 0 = .resp 200 (.json j) → extract_album j = some a →
      (∀ i, s i = .resp 500) →
      main_model env w f s =
        ⟨.sendExpectPanic (.status 500), 12, 600⟩) := by
  constructor
  · intro bodies hf
    have hget := get_album_go_all_status_fail f (fun _ => 500) bodies 60 hf
      (fun i => rfl) 10 0
    simp only [get_album, main_retry_limit, main_sleep_secs] at hget ⊢
    simp [main_model, hb, hg, main_retry_limit, main_sleep_secs,
      get_album, hget]
  · intro j a hf0 hj hs
    have hpre0 : ∀ i, i < 0 → ∃ c bd, f (0 + i) = .resp c bd ∧
        error_for_status_fails c = true := by
      intro i hi
      exact absurd hi (Nat.not_lt_zero i)
    have hget := get_album_go_fail_prefix f 60 j a 200 (by decide) hj 0 10 0
      hpre0 (by simpa using hf0) (by omega)
    have hsend := send_message_go_all_status_fail s (fun _ => 500) 60 hs
      (fun i => rfl) 10 0
    simp [main_model, hb, hg, main_retry_limit, main_sleep_secs,
      get_album, send_message, hget, hsend]

/-- C9 witness: concrete runs showing the 11-attempt, 600-second fetch
exhaustion and the 12-attempt, 600-second send exhaustion. -/
theorem main_policy_shared_by_both_calls_witness :
    main_model envFull worldA allStatus500Fetch okSendOracle =
      ⟨.fetchExpectPanic (.status 500), 11, 600⟩ ∧
    main_model envFull worldA okFetchOracle allStatus500Send =
      ⟨.sendExpectPanic (.status 500), 12, 600⟩ := by
  constructor
  · exact (main_policy_shared_by_both_calls envFull "B" "abc" worldA
      allStatus500Fetch okSendOracle rfl rfl).1
      (fun _ => .json .null) (fun i => rfl)
  · exact (main_policy_shared_by_both_calls envFull "B" "abc" worldA
      okFetchOracle allStatus500Send rfl rfl).2
      okComputerJson okComputerAlbum rfl rfl (fun i => rfl)

end AlbumsBot
